import Mathlib

set_option allowUnsafeReducibility true in
attribute [semireducible] Rat.mul Rat.inv Rat.add Rat.sub

deriving instance DecidableEq for Except

/-!
Verification of the adaptive test-selection and effect-size pipeline shared by
`Analyze_elements_groups.py`, `composite_analysis.py` and `stai_analysis.py`.

The scripts' own logic (filtering, normality policy, test selection,
significance tiers, eta-squared, Cohen's d, the Spearman guard) is embedded as
executable Lean definitions over `ℚ`.  Calls into scipy (Shapiro-Wilk, the
comparison tests, Levene, Wilcoxon, Spearman) return irrational statistics, so
they are abstracted as an oracle record `StatLib`: the claims under study are
about the scripts' branching and arithmetic, which are proved for every oracle.
The one numeric scipy behaviour a claim depends on, IEEE division of the form
`num / sqrt(denomSq)` inside `ttest_rel` and the Cohen's d line, is embedded
exactly in `NpVal`/`npDivSqrt` (NaN for 0/0, signed infinity for x/0, finite
values represented by sign and square).
-/

namespace Thesis

/-- The four-value judgment vocabulary of the CSV columns:
ValidCoping (有効), NoEffect (不変), Counterproductive (逆効果) and the sentinel
InsufficientData (データ不足). -/
inductive Category where
  | validCoping
  | noEffect
  | counterproductive
  | insufficientData
  deriving DecidableEq

/-- Significance tiers printed by all three scripts: `***`, `**`, `*`, `n.s.`. -/
inductive SigTier where
  | p001
  | p01
  | p05
  | ns
  deriving DecidableEq

/-- Effect-size tiers of `classify_eta_sq` (大 / 中 / 小 / 極小). -/
inductive EffectTier where
  | large
  | medium
  | small
  | negligible
  deriving DecidableEq

/-- The four group-comparison tests the pipeline can choose. -/
inductive TestChoice where
  | tTest
  | mannWhitneyU
  | anova
  | kruskalWallis
  deriving DecidableEq

/-- The two whole-sample paired tests named by `stai_analysis.py`
(`Paired t-test` vs `Wilcoxon signed-rank test (recommended)`). -/
inductive PairedChoice where
  | pairedT
  | wilcoxon
  deriving DecidableEq

/-- Python exceptions reachable in `composite_analysis.py`'s per-element block:
`NameError` (reading `p_value` before any branch assigned it) and `ValueError`
(`np.concatenate` of an empty list of arrays). -/
inductive PyError where
  | nameError
  | valueError
  deriving DecidableEq

/-- Sample mean, `np.mean` / pandas `.mean()`: sum divided by length
(Lean's `ℚ` gives the junk value `0` for the empty list, which no guarded
code path reaches). -/
def mean (l : List ℚ) : ℚ := l.sum / l.length

/-- Sample variance with `ddof = 1`, as used by pandas `.std()` and by
`np.var(d, ddof=1)` inside `scipy.stats.ttest_rel`: sum of squared deviations
from the mean divided by `n - 1`. -/
def sampleVar (l : List ℚ) : ℚ :=
  (l.map (fun x => (x - mean l) ^ 2)).sum / ((l.length : ℚ) - 1)

/-- Pointwise difference of the two condition columns, as built by
`ttest_rel` (`d = a - b`) and by `diff_scores = A_Score - B_Score`
(stai_analysis.py line 69).  Condition A minus condition B. -/
def diffScores (a b : List ℚ) : List ℚ := List.zipWith (fun x y => x - y) a b

/-- The value class of an IEEE float of the shape `num / sqrt(denomSq)`
(`denomSq ≥ 0` in every use): NaN exactly for `0 / 0`, a signed infinity for
`x / 0` with `x ≠ 0`, otherwise a finite value recorded by its square and the
sign of `num` (the value itself is irrational in general). -/
inductive NpVal where
  | nan
  | posInf
  | negInf
  | val (sq : ℚ) (nonneg : Bool)
  deriving DecidableEq

/-- Numpy's float division `num / sqrt(denomSq)` at the resolution `NpVal`
records; numpy emits NaN for `0.0 / 0.0` and `±inf` for `x / 0.0`. -/
def npDivSqrt (num denomSq : ℚ) : NpVal :=
  if denomSq = 0 then
    if num = 0 then .nan else if 0 < num then .posInf else .negInf
  else .val (num ^ 2 / denomSq) (decide (0 ≤ num))

/-- Cohen's d for paired designs, `diff_scores.mean() / diff_scores.std()`
(stai_analysis.py lines 69-70), with `diff_scores = A - B`.  The standard
deviation is `sqrt(sampleVar)`, so the float is `npDivSqrt` of the mean and
the variance. -/
def cohensD (a b : List ℚ) : NpVal :=
  npDivSqrt (mean (diffScores a b)) (sampleVar (diffScores a b))

/-- The t statistic of `scipy.stats.ttest_rel(a, b)`:
`t = mean(d) / sqrt(var(d, ddof=1) / n)` for `d = a - b`, computed by scipy
with `np.divide` under `errstate(ignore)`, hence NaN for `0 / 0`. -/
def ttestRelT (a b : List ℚ) : NpVal :=
  npDivSqrt (mean (diffScores a b))
    (sampleVar (diffScores a b) / ((diffScores a b).length : ℚ))

/-- Oracle record for the scipy statistics the scripts call but whose values
(irrational in general) no claim depends on.  `shapiroP` is the Shapiro-Wilk
p-value of a sample; `ttestIndP`, `mannwhitneyP` (two-sided, scipy 1.13's
default and the explicit argument in composite_analysis.py), `anovaP`,
`kruskalP` are the two-sided p-values of the four comparison tests; `leveneP`
is Levene's p-value; `wilcoxonS` the Wilcoxon signed-rank statistic;
`spearmanRP` Spearman's `(rho, p)` on encoded pairs. -/
structure StatLib where
  shapiroP : List ℚ → ℚ
  ttestIndP : List ℚ → List ℚ → ℚ
  mannwhitneyP : List ℚ → List ℚ → ℚ
  anovaP : List (List ℚ) → ℚ
  kruskalP : List (List ℚ) → ℚ
  leveneP : List (List ℚ) → ℚ
  wilcoxonS : List ℚ → List ℚ → ℚ
  spearmanRP : List (ℤ × ℚ) → ℚ × ℚ

/-- Per-group normality flag: for `n ≥ 3` run Shapiro-Wilk and record
`p ≥ 0.05`; a group with `n < 3` is unconditionally non-normal
(Analyze_elements_groups.py lines 72-83, composite_analysis.py lines 147-157). -/
def groupNormal (sh : List ℚ → ℚ) (g : List ℚ) : Bool :=
  if 3 ≤ g.length then decide ((1 : ℚ) / 20 ≤ sh g) else false

/-- `all_normal`: both scripts start the flag at `True` and clear it on each
non-normal (or `n < 3`) group, i.e. a left fold of `&&` over the groups. -/
def allNormal (sh : List ℚ → ℚ) (gs : List (List ℚ)) : Bool :=
  gs.foldl (fun acc g => acc && groupNormal sh g) true

/-- Significance tiering from the raw p-value, identical in all three scripts:
`p < 0.001 → ***`, `p < 0.01 → **`, `p < 0.05 → *`, else `n.s.`. -/
def sigTier (p : ℚ) : SigTier :=
  if p < 1 / 1000 then .p001
  else if p < 1 / 100 then .p01
  else if p < 1 / 20 then .p05
  else .ns

/-- `classify_eta_sq` (composite_analysis.py lines 42-49):
large for `η² ≥ 0.14`, medium for `≥ 0.06`, small for `≥ 0.01`, else
negligible; the same thresholds are inlined in Analyze_elements_groups.py. -/
def classifyEtaSq (e : ℚ) : EffectTier :=
  if 14 / 100 ≤ e then .large
  else if 6 / 100 ≤ e then .medium
  else if 1 / 100 ≤ e then .small
  else .negligible

/-- Grand mean of the pooled data, `np.mean(all_data)` for
`all_data = np.concatenate(group_arrays)`. -/
def grandMean (gs : List (List ℚ)) : ℚ := mean gs.flatten

/-- Between-group sum of squares around an arbitrary centre `b`
(the code always instantiates `b` with the grand mean; the extra parameter
serves the proofs): `Σ n_i * (mean g_i - b)²`. -/
def ssBetweenAt (gs : List (List ℚ)) (b : ℚ) : ℚ :=
  (gs.map (fun g => (g.length : ℚ) * (mean g - b) ^ 2)).sum

/-- Total sum of squares around an arbitrary centre `b`:
`Σ (x - b)²` over the pooled data. -/
def ssTotalAt (gs : List (List ℚ)) (b : ℚ) : ℚ :=
  ((gs.flatten).map (fun x => (x - b) ^ 2)).sum

/-- `ss_between` of the code: group sizes times squared deviations of group
means from the grand mean. -/
def ssBetween (gs : List (List ℚ)) : ℚ := ssBetweenAt gs (grandMean gs)

/-- `ss_total` of the code: squared deviations of all pooled values from the
grand mean. -/
def ssTotal (gs : List (List ℚ)) : ℚ := ssTotalAt gs (grandMean gs)

/-- `calc_eta_squared` (composite_analysis.py lines 61-79) and the identical
inline block (Analyze_elements_groups.py lines 128-137):
`ss_between / ss_total if ss_total > 0 else 0`. -/
def calcEtaSquared (gs : List (List ℚ)) : ℚ :=
  if 0 < ssTotal gs then ssBetween gs / ssTotal gs else 0

/-- Running `calc_eta_squared` as Python does: `np.concatenate` of an empty
list of arrays raises `ValueError` before any arithmetic happens. -/
def calcEtaSquaredRun (gs : List (List ℚ)) : Except PyError ℚ :=
  if gs = [] then .error .valueError else .ok (calcEtaSquared gs)

/-- Within-group sum of squares (proof auxiliary for the variance
decomposition; not computed by the scripts). -/
def ssWithin (gs : List (List ℚ)) : ℚ :=
  (gs.map (fun g => (g.map (fun x => (x - mean g) ^ 2)).sum)).sum

/-- The fixed canonical label order both group scripts iterate over
(`['有効', '不変', '逆効果']`); データ不足 is never a group label. -/
def JUDGMENT_LABELS : List Category :=
  [.validCoping, .noEffect, .counterproductive]

/-- `df_analysis = df[df[col] != 'データ不足']`: drop the sentinel rows of the
selected label dimension. -/
def dfAnalysis (rows : List (Category × ℚ)) : List (Category × ℚ) :=
  rows.filter (fun r => !(r.1 == Category.insufficientData))

/-- Group construction of both group scripts: for each judgment label in the
fixed order, collect the delta values of the surviving rows with that label,
and keep the group only if it is non-empty. -/
def buildGroups (rows : List (Category × ℚ)) : List (Category × List ℚ) :=
  JUDGMENT_LABELS.filterMap (fun lab =>
    let vals := ((dfAnalysis rows).filter (fun r => r.1 == lab)).map Prod.snd
    if vals = [] then none else some (lab, vals))

/-- `groups_data` / `group_arrays`: the delta arrays of the surviving groups. -/
def groupArrays (rows : List (Category × ℚ)) : List (List ℚ) :=
  (buildGroups rows).map Prod.snd

/-- The structured per-dimension result of Analyze_elements_groups.py
(the fields appended to `results_summary` plus the informational Levene
p-value, which is printed but feeds nothing). -/
structure ComparisonResult where
  test : TestChoice
  p_value : ℚ
  sig : SigTier
  eta_sq : ℚ
  levene_p : Option ℚ
  deriving DecidableEq

/-- Test selection of Analyze_elements_groups.py lines 95-111, used only
under the `len(groups_data) >= 2` guard: two groups give the independent
t-test when all groups are normal and Mann-Whitney U otherwise; three or more
give one-way ANOVA when all normal and Kruskal-Wallis otherwise.  Returns the
chosen test together with its p-value. -/
def chooseTest (lib : StatLib) (gs : List (List ℚ)) : TestChoice × ℚ :=
  if gs.length = 2 then
    if allNormal lib.shapiroP gs then
      (.tTest, lib.ttestIndP gs.headI gs.tail.headI)
    else
      (.mannWhitneyU, lib.mannwhitneyP gs.headI gs.tail.headI)
  else
    if allNormal lib.shapiroP gs then (.anova, lib.anovaP gs)
    else (.kruskalWallis, lib.kruskalP gs)

/-- The per-dimension pipeline of Analyze_elements_groups.py: group rows,
and only when at least 2 groups survive run normality screening, the
informational Levene test (guarded by every group having `n ≥ 2`), the chosen
comparison test, significance tiering and eta-squared; with fewer than 2
groups the whole block is skipped and nothing is reported (lines 66-157). -/
def analyzeCompare (lib : StatLib) (rows : List (Category × ℚ)) :
    Option ComparisonResult :=
  if 2 ≤ (groupArrays rows).length then
    some { test := (chooseTest lib (groupArrays rows)).1
         , p_value := (chooseTest lib (groupArrays rows)).2
         , sig := sigTier (chooseTest lib (groupArrays rows)).2
         , eta_sq := calcEtaSquared (groupArrays rows)
         , levene_p :=
             if (groupArrays rows).all (fun g => decide (2 ≤ g.length)) then
               some (lib.leveneP (groupArrays rows))
             else none }
  else none

/-- The Python locals of composite_analysis.py's per-element loop body that
survive from one iteration to the next: `test_name` and `p_value` are plain
script-level variables, so a later iteration that assigns neither reads the
previous element's values (`none` models "never assigned yet"). -/
structure CompLocals where
  test : Option TestChoice
  p_value : Option ℚ
  deriving DecidableEq

/-- The locals before the first element is processed. -/
def compositeInit : CompLocals := ⟨none, none⟩

/-- One per-element report of composite_analysis.py (test, p-value,
significance mark, eta-squared and its Cohen tier). -/
structure CompReport where
  test : TestChoice
  p_value : ℚ
  sig : SigTier
  eta_sq : ℚ
  eta_tier : EffectTier
  deriving DecidableEq

/-- Step 4 of composite_analysis.py (lines 173-196): assign `test_name` and
`p_value` when `n_groups == 3` or `n_groups == 2`; any other group count
assigns neither, leaving whatever the locals held before. -/
def compositeLocalsStep (lib : StatLib) (s : CompLocals) (gs : List (List ℚ)) :
    CompLocals :=
  if gs.length = 3 then
    if allNormal lib.shapiroP gs then ⟨some .anova, some (lib.anovaP gs)⟩
    else ⟨some .kruskalWallis, some (lib.kruskalP gs)⟩
  else if gs.length = 2 then
    if allNormal lib.shapiroP gs then
      ⟨some .tTest, some (lib.ttestIndP gs.headI gs.tail.headI)⟩
    else
      ⟨some .mannWhitneyU, some (lib.mannwhitneyP gs.headI gs.tail.headI)⟩
  else s

/-- One full iteration of composite_analysis.py's element loop (lines
107-216): group the rows, update the locals per step 4, then compute the
significance mark from `p_value` (line 199) and eta-squared from the current
group arrays (line 209).  Reading `p_value` before any branch ever assigned
it is a `NameError`; `calc_eta_squared` of zero groups is a `ValueError`. -/
def compositeStep (lib : StatLib) (s : CompLocals) (rows : List (Category × ℚ)) :
    CompLocals × Except PyError CompReport :=
  let s2 := compositeLocalsStep lib s (groupArrays rows)
  match s2.p_value, s2.test with
  | some p, some t =>
    match calcEtaSquaredRun (groupArrays rows) with
    | .ok e =>
        (s2, .ok { test := t, p_value := p, sig := sigTier p, eta_sq := e
                 , eta_tier := classifyEtaSq e })
    | .error err => (s2, .error err)
  | _, _ => (s2, .error .nameError)

/-- Follows the spec's words, for comparison with the code: the deterministic
test-selection table of section 4.1 step 5, a function of the group count and
the all-normal flag alone. -/
def specTestTable (n : ℕ) (allN : Bool) : TestChoice :=
  if n = 2 then (if allN then .tTest else .mannWhitneyU)
  else (if allN then .anova else .kruskalWallis)

/-- The whole-sample paired result of stai_analysis.py: Shapiro-Wilk on each
condition's raw scores (lines 35-36), the recommended test name chosen by
`shapiro_a.pvalue > 0.05 and shapiro_b.pvalue > 0.05` (line 42), the paired
t statistic (line 50), the difference-score mean/variance and Cohen's d
(lines 69-73), and the Wilcoxon statistic (line 80) — the last four computed
unconditionally, whatever the normality outcome. -/
structure PairedResult where
  shapiro_a : ℚ
  shapiro_b : ℚ
  test : PairedChoice
  t_res : NpVal
  mean_diff : ℚ
  var_diff : ℚ
  cohens_d : NpVal
  w_res : ℚ
  deriving DecidableEq

/-- The paired entry point of stai_analysis.py on the two raw score columns. -/
def pairedCompare (lib : StatLib) (a b : List ℚ) : PairedResult :=
  { shapiro_a := lib.shapiroP a
  , shapiro_b := lib.shapiroP b
  , test :=
      if 1 / 20 < lib.shapiroP a ∧ 1 / 20 < lib.shapiroP b then .pairedT
      else .wilcoxon
  , t_res := ttestRelT a b
  , mean_diff := mean (diffScores a b)
  , var_diff := sampleVar (diffScores a b)
  , cohens_d := cohensD a b
  , w_res := lib.wilcoxonS a b }

/-- `element_mapping` (stai_analysis.py line 102): 有効 → 1, 不変 → 0,
逆効果 → -1, データ不足 → NaN, i.e. missing. -/
def elementMapping : Category → Option ℤ
  | .validCoping => some 1
  | .noEffect => some 0
  | .counterproductive => some (-1)
  | .insufficientData => none

/-- `valid_data = df_clean[[elem_score, 'Delta_STAI']].dropna()`: the jointly
non-missing (encoded label, delta) pairs; the delta column of `df_clean` has
no missing values, so only the sentinel label drops a pair. -/
def validPairs (rows : List (Category × ℚ)) : List (ℤ × ℚ) :=
  rows.filterMap (fun r => (elementMapping r.1).map (fun v => (v, r.2)))

/-- The Spearman correlation block (stai_analysis.py lines 117-138): run
`spearmanr` on the valid pairs only `if len(valid_data) > 2`, else report
insufficient data (`none`) and never attempt the correlation. -/
def spearmanSection (lib : StatLib) (rows : List (Category × ℚ)) :
    Option (ℚ × ℚ) :=
  if 2 < (validPairs rows).length then some (lib.spearmanRP (validPairs rows))
  else none

/-- A concrete oracle assignment used by the concrete-input theorems:
every sample is "normal" (Shapiro-Wilk p = 0.1) and each test returns a fixed
p-value, so reports can be evaluated exactly. -/
def libA : StatLib :=
  { shapiroP := fun _ => 1 / 10
  , ttestIndP := fun _ _ => 3 / 100
  , mannwhitneyP := fun _ _ => 2 / 100
  , anovaP := fun _ => 4 / 100
  , kruskalP := fun _ => 6 / 100
  , leveneP := fun _ => 1 / 2
  , wilcoxonS := fun _ _ => 5
  , spearmanRP := fun _ => (1 / 2, 1 / 25) }

/-- `libA` with the Shapiro-Wilk oracle pinned to exactly p = 0.05, the
boundary the spec's claims single out. -/
def libHalf : StatLib := { libA with shapiroP := fun _ => 1 / 20 }

/-- A label dimension with two surviving groups of three deltas each. -/
def rowsTwoGroups : List (Category × ℚ) :=
  [(.validCoping, 1), (.validCoping, 2), (.validCoping, 3),
   (.noEffect, 5), (.noEffect, 6), (.noEffect, 7)]

/-- A label dimension where only one group survives filtering. -/
def rowsOneGroup : List (Category × ℚ) :=
  [(.validCoping, 10), (.validCoping, 20), (.insufficientData, 3)]

/-- A label column leaving exactly two jointly valid correlation pairs. -/
def rowsTwoValid : List (Category × ℚ) :=
  [(.validCoping, 1), (.insufficientData, 2), (.noEffect, 3),
   (.insufficientData, 4)]

/-- A label column leaving exactly three jointly valid correlation pairs. -/
def rowsThreeValid : List (Category × ℚ) :=
  [(.validCoping, 1), (.noEffect, 2), (.counterproductive, 3),
   (.insufficientData, 9)]

/-! ## General lemmas about the embedded definitions -/

theorem allNormal_foldl (sh : List ℚ → ℚ) (gs : List (List ℚ)) (acc : Bool) :
    gs.foldl (fun a g => a && groupNormal sh g) acc
      = (acc && gs.all (groupNormal sh)) := by
  induction gs generalizing acc with
  | nil => simp
  | cons g t ih => simp [List.foldl_cons, ih, Bool.and_assoc]

theorem allNormal_eq_all (sh : List ℚ → ℚ) (gs : List (List ℚ)) :
    allNormal sh gs = gs.all (groupNormal sh) := by
  simp [allNormal, allNormal_foldl]

theorem diffScores_self (l : List ℚ) :
    diffScores l l = List.replicate l.length 0 := by
  induction l with
  | nil => rfl
  | cons x t ih =>
    simp only [diffScores, List.zipWith_cons_cons, sub_self, List.length_cons,
      List.replicate_succ] at ih ⊢
    rw [ih]

theorem mean_replicate_zero (n : ℕ) : mean (List.replicate n 0) = 0 := by
  simp [mean, List.sum_replicate]

theorem sampleVar_replicate_zero (n : ℕ) :
    sampleVar (List.replicate n 0) = 0 := by
  simp [sampleVar, mean_replicate_zero, List.map_replicate, List.sum_replicate]

theorem sum_sq_nonneg (l : List ℚ) (c : ℚ) :
    0 ≤ (l.map (fun x => (x - c) ^ 2)).sum := by
  refine List.sum_nonneg ?_
  intro x hx
  obtain ⟨y, _, rfl⟩ := List.mem_map.mp hx
  positivity

theorem ssTotalAt_nonneg (gs : List (List ℚ)) (b : ℚ) : 0 ≤ ssTotalAt gs b :=
  sum_sq_nonneg _ b

theorem ssTotal_nonneg (gs : List (List ℚ)) : 0 ≤ ssTotal gs :=
  ssTotalAt_nonneg gs (grandMean gs)

theorem groupArrays_length_le (rows : List (Category × ℚ)) :
    (groupArrays rows).length ≤ 3 := by
  unfold groupArrays buildGroups
  rw [List.length_map]
  exact List.length_filterMap_le _ JUDGMENT_LABELS

/-- With at least 2 surviving groups, one composite iteration always reaches a
report whose test is the spec's table entry for the current group count and
all-normal flag, whose eta-squared is the shared `calc_eta_squared`, and whose
significance mark is `sigTier` of the reported p-value. -/
theorem compositeStep_ok_of (lib : StatLib) (s : CompLocals)
    (rows : List (Category × ℚ)) (h : 2 ≤ (groupArrays rows).length) :
    ∃ rep : CompReport,
      (compositeStep lib s rows).2 = .ok rep
      ∧ rep.test = specTestTable (groupArrays rows).length
          (allNormal lib.shapiroP (groupArrays rows))
      ∧ rep.eta_sq = calcEtaSquared (groupArrays rows)
      ∧ rep.sig = sigTier rep.p_value := by
  have h3 := groupArrays_length_le rows
  set gs := groupArrays rows with hgs
  have hne : gs ≠ [] := by
    intro e; rw [e] at h; simp at h
  have hrun : calcEtaSquaredRun gs = .ok (calcEtaSquared gs) := by
    unfold calcEtaSquaredRun; rw [if_neg hne]
  have hcase : gs.length = 2 ∨ gs.length = 3 := by omega
  have key : ∀ t p, compositeLocalsStep lib s gs = ⟨some t, some p⟩ →
      (compositeStep lib s rows).2
        = .ok ⟨t, p, sigTier p, calcEtaSquared gs,
              classifyEtaSq (calcEtaSquared gs)⟩ := by
    intro t p hstep
    unfold compositeStep
    rw [← hgs, hstep]
    simp [hrun]
  rcases hcase with hl | hl <;> cases hN : allNormal lib.shapiroP gs
  · exact ⟨_, key .mannWhitneyU (lib.mannwhitneyP gs.headI gs.tail.headI)
        (by simp [compositeLocalsStep, hl, hN]),
      by simp [specTestTable, hl, hN], rfl, rfl⟩
  · exact ⟨_, key .tTest (lib.ttestIndP gs.headI gs.tail.headI)
        (by simp [compositeLocalsStep, hl, hN]),
      by simp [specTestTable, hl, hN], rfl, rfl⟩
  · exact ⟨_, key .kruskalWallis (lib.kruskalP gs)
        (by simp [compositeLocalsStep, hl, hN]),
      by simp [specTestTable, hl, hN], rfl, rfl⟩
  · exact ⟨_, key .anova (lib.anovaP gs)
        (by simp [compositeLocalsStep, hl, hN]),
      by simp [specTestTable, hl, hN], rfl, rfl⟩

/-- Claim C2: with at least 2 surviving groups, the chosen test is exactly
the spec's table entry for the pair (group count, all-normal): 2 groups give
the t-test when all normal and two-sided Mann-Whitney U otherwise, 3 or more
give ANOVA when all normal and Kruskal-Wallis otherwise — in both scripts —
and no other condition changes the choice: replacing the Levene oracle leaves
the chosen test untouched. -/
theorem c2_test_selection_table (lib : StatLib) (rows : List (Category × ℚ))
    (q : List (List ℚ) → ℚ) (s : CompLocals)
    (h : 2 ≤ (groupArrays rows).length) :
    ((analyzeCompare lib rows).map (fun r => r.test)
        = some (specTestTable (groupArrays rows).length
            (allNormal lib.shapiroP (groupArrays rows))))
  ∧ ((analyzeCompare { lib with leveneP := q } rows).map (fun r => r.test)
        = (analyzeCompare lib rows).map (fun r => r.test))
  ∧ (∃ rep : CompReport, (compositeStep lib s rows).2 = .ok rep
        ∧ rep.test = specTestTable (groupArrays rows).length
            (allNormal lib.shapiroP (groupArrays rows))) := by
  refine ⟨?_, ?_, ?_⟩
  · unfold analyzeCompare
    rw [if_pos h]
    simp only [Option.map_some']
    unfold chooseTest specTestTable
    split_ifs <;> rfl
  · unfold analyzeCompare
    rw [if_pos h, if_pos h]
    rfl
  · obtain ⟨rep, h1, h2, _, _⟩ := compositeStep_ok_of lib s rows h
    exact ⟨rep, h1, h2⟩

/-- Concrete instantiation of claim C2's theorem on a two-group, all-normal
dimension. -/
theorem c2_test_selection_table_witness :
    2 ≤ (groupArrays rowsTwoGroups).length
  ∧ ((analyzeCompare libA rowsTwoGroups).map (fun r => r.test)
      = some (specTestTable (groupArrays rowsTwoGroups).length
          (allNormal libA.shapiroP (groupArrays rowsTwoGroups)))) :=
  ⟨by decide,
   (c2_test_selection_table libA rowsTwoGroups (fun _ => 0) compositeInit
      (by decide)).1⟩

/-- Claim C6: with at least 2 surviving groups, the reported effect size is
`calc_eta_squared` of the pooled surviving groups in both scripts — the same
value whatever every test oracle returns, hence whatever test was chosen —
which equals (between-group SS) / (total SS), and is 0 (not NaN) when the
total sum of squares is exactly 0. -/
theorem c6_eta_squared_shared (lib lib₂ : StatLib) (s : CompLocals)
    (rows : List (Category × ℚ)) (h : 2 ≤ (groupArrays rows).length) :
    ((analyzeCompare lib rows).map (fun r => r.eta_sq)
        = some (calcEtaSquared (groupArrays rows)))
  ∧ ((analyzeCompare lib rows).map (fun r => r.eta_sq)
        = (analyzeCompare lib₂ rows).map (fun r => r.eta_sq))
  ∧ (∃ rep : CompReport, (compositeStep lib s rows).2 = .ok rep
        ∧ rep.eta_sq = calcEtaSquared (groupArrays rows))
  ∧ (ssTotal (groupArrays rows) = 0 → calcEtaSquared (groupArrays rows) = 0)
  ∧ (ssTotal (groupArrays rows) ≠ 0 →
        calcEtaSquared (groupArrays rows)
          = ssBetween (groupArrays rows) / ssTotal (groupArrays rows)) := by
  refine ⟨?_, ?_, ?_, ?_, ?_⟩
  · unfold analyzeCompare; rw [if_pos h]; rfl
  · unfold analyzeCompare; rw [if_pos h, if_pos h]; rfl
  · obtain ⟨rep, h1, _, h3, _⟩ := compositeStep_ok_of lib s rows h
    exact ⟨rep, h1, h3⟩
  · intro h0; unfold calcEtaSquared
    rw [if_neg (by rw [h0]; exact lt_irrefl 0)]
  · intro h0; unfold calcEtaSquared
    rw [if_pos (lt_of_le_of_ne (ssTotal_nonneg _) (Ne.symm h0))]

/-- Concrete instantiation of claim C6's theorem on the two-group dimension. -/
theorem c6_eta_squared_shared_witness :
    2 ≤ (groupArrays rowsTwoGroups).length
  ∧ ((analyzeCompare libA rowsTwoGroups).map (fun r => r.eta_sq)
      = some (calcEtaSquared (groupArrays rowsTwoGroups))) :=
  ⟨by decide,
   (c6_eta_squared_shared libA libHalf compositeInit rowsTwoGroups
      (by decide)).1⟩

/-! ## Claim theorems -/

/-- Claim C4: the per-group normality flag is true iff the group's
Shapiro-Wilk p-value is at least 0.05 (so p = 0.05 exactly counts as normal)
and the group has at least 3 values; any group with fewer than 3 values is
unconditionally non-normal; and `all_normal` is the conjunction of the
per-group flags. -/
theorem c4_normality_policy (sh : List ℚ → ℚ) (g : List ℚ)
    (gs : List (List ℚ)) :
    (groupNormal sh g = true ↔ 3 ≤ g.length ∧ (1 : ℚ) / 20 ≤ sh g)
  ∧ (g.length < 3 → groupNormal sh g = false)
  ∧ (allNormal sh gs = true ↔ ∀ g2 ∈ gs, groupNormal sh g2 = true) := by
  refine ⟨?_, ?_, ?_⟩
  · unfold groupNormal; split_ifs with h <;> simp [h]
  · intro h; unfold groupNormal; rw [if_neg (by omega)]
  · rw [allNormal_eq_all, List.all_eq_true]

/-- Concrete instantiation of claim C4's theorem: a 2-value group is
non-normal regardless of its Shapiro-Wilk p-value, and `all_normal` holds for
a single normal group of three values. -/
theorem c4_normality_policy_witness :
    (([1, 2] : List ℚ).length < 3
      ∧ groupNormal (fun _ => (1 : ℚ) / 10) [1, 2] = false)
  ∧ allNormal (fun _ => (1 : ℚ) / 10) [[1, 2, 3]] = true :=
  ⟨⟨by decide,
    (c4_normality_policy (fun _ => (1 : ℚ) / 10) [1, 2] [[1, 2, 3]]).2.1
      (by decide)⟩,
   ((c4_normality_policy (fun _ => (1 : ℚ) / 10) [1, 2] [[1, 2, 3]]).2.2).mpr
      (by decide)⟩

/-- Claim C8: significance tiers are determined by strict-less-than
thresholds on the raw p-value (`p < 0.001`, `p < 0.01`, `p < 0.05`, else
n.s.), so p = 0.05 exactly is n.s. while p = 0.0499999 earns one star; and
the reported tier of a pipeline result is exactly `sigTier` of its reported
p-value. -/
theorem c8_significance_tiers (p : ℚ) (lib : StatLib)
    (rows : List (Category × ℚ)) (r : ComparisonResult) :
    (sigTier p = .p001 ↔ p < 1 / 1000)
  ∧ (sigTier p = .p01 ↔ 1 / 1000 ≤ p ∧ p < 1 / 100)
  ∧ (sigTier p = .p05 ↔ 1 / 100 ≤ p ∧ p < 1 / 20)
  ∧ (sigTier p = .ns ↔ 1 / 20 ≤ p)
  ∧ sigTier (1 / 20) = .ns
  ∧ sigTier (499999 / 10000000) = .p05
  ∧ (analyzeCompare lib rows = some r → r.sig = sigTier r.p_value) := by
  refine ⟨?_, ?_, ?_, ?_, by decide, by decide, ?_⟩
  · unfold sigTier; split_ifs with h1 h2 h3
    · exact iff_of_true rfl h1
    · exact iff_of_false (by decide) h1
    · exact iff_of_false (by decide) h1
    · exact iff_of_false (by decide) h1
  · unfold sigTier; split_ifs with h1 h2 h3
    · exact iff_of_false (by decide) (fun hc => absurd h1 (not_lt.mpr hc.1))
    · exact iff_of_true rfl ⟨not_lt.mp h1, h2⟩
    · exact iff_of_false (by decide) (fun hc => h2 hc.2)
    · exact iff_of_false (by decide) (fun hc => h2 hc.2)
  · unfold sigTier; split_ifs with h1 h2 h3
    · exact iff_of_false (by decide) (fun hc => absurd h1 (not_lt.mpr (by linarith [hc.1])))
    · exact iff_of_false (by decide) (fun hc => absurd h2 (not_lt.mpr hc.1))
    · exact iff_of_true rfl ⟨not_lt.mp h2, h3⟩
    · exact iff_of_false (by decide) (fun hc => h3 hc.2)
  · unfold sigTier; split_ifs with h1 h2 h3
    · exact iff_of_false (by decide) (fun hc => absurd h1 (not_lt.mpr (by linarith)))
    · exact iff_of_false (by decide) (fun hc => absurd h2 (not_lt.mpr (by linarith)))
    · exact iff_of_false (by decide) (fun hc => absurd h3 (not_lt.mpr hc))
    · exact iff_of_true rfl (not_lt.mp h3)
  · intro h
    unfold analyzeCompare at h
    split_ifs at h
    all_goals
      rw [Option.some.injEq] at h; subst h; rfl

/-- Concrete instantiation of claim C8's theorem: the two-group run reports
the tier computed from its own p-value. -/
theorem c8_significance_tiers_witness :
    analyzeCompare libA rowsTwoGroups
      = some { test := .tTest, p_value := 3 / 100, sig := .p05, eta_sq := 6 / 7
             , levene_p := some (1 / 2) }
  ∧ ({ test := .tTest, p_value := 3 / 100, sig := .p05, eta_sq := 6 / 7
     , levene_p := some (1 / 2) } : ComparisonResult).sig
      = sigTier ({ test := .tTest, p_value := 3 / 100, sig := .p05
                 , eta_sq := 6 / 7
                 , levene_p := some (1 / 2) } : ComparisonResult).p_value :=
  ⟨by decide,
   (c8_significance_tiers 1 libA rowsTwoGroups _).2.2.2.2.2.2 (by decide)⟩

/-- Claim C3 (amended): `compare_paired` runs Shapiro-Wilk on each condition's
raw scores separately (not on the deltas), and the paired t-test is selected
iff both Shapiro-Wilk p-values are strictly greater than 0.05; otherwise the
Wilcoxon signed-rank test is recommended.  (The code's boundary is `> 0.05`,
not the claimed `≥ 0.05`.) -/
theorem c3_paired_selection (lib : StatLib) (a b : List ℚ) :
    (pairedCompare lib a b).shapiro_a = lib.shapiroP a
  ∧ (pairedCompare lib a b).shapiro_b = lib.shapiroP b
  ∧ ((pairedCompare lib a b).test = .pairedT
      ↔ 1 / 20 < lib.shapiroP a ∧ 1 / 20 < lib.shapiroP b)
  ∧ ((pairedCompare lib a b).test = .wilcoxon
      ↔ ¬(1 / 20 < lib.shapiroP a ∧ 1 / 20 < lib.shapiroP b)) := by
  refine ⟨rfl, rfl, ?_, ?_⟩ <;>
    · unfold pairedCompare
      dsimp only
      split_ifs with h <;> simpa using h

/-- Counterexample to claim C3 as stated: with both Shapiro-Wilk p-values
exactly 0.05 (which the claim's `p ≥ 0.05` counts as normal), the code
selects the Wilcoxon test, not the paired t-test, because line 42 of
stai_analysis.py compares with strict `>`. -/
theorem c3_boundary_counterexample :
    libHalf.shapiroP [32, 41, 55] ≥ 1 / 20
  ∧ libHalf.shapiroP [30, 42, 50] ≥ 1 / 20
  ∧ (pairedCompare libHalf [32, 41, 55] [30, 42, 50]).test = .wilcoxon
  ∧ PairedChoice.wilcoxon ≠ PairedChoice.pairedT := by decide

/-- Claim C5 (amended): Cohen's d for paired designs is
`mean(conditionA − conditionB) / sd(conditionA − conditionB)` (A minus B) and
is reported alongside the difference mean and variance; on identical arrays
the difference mean and variance are 0, so Cohen's d is the 0/0 float, NaN —
and the paired t statistic is likewise NaN (scipy divides 0 by 0), not 0. -/
theorem c5_cohens_d_paired (lib : StatLib) (l a b : List ℚ) :
    (pairedCompare lib a b).mean_diff = mean (diffScores a b)
  ∧ (pairedCompare lib a b).cohens_d
      = npDivSqrt (mean (diffScores a b)) (sampleVar (diffScores a b))
  ∧ cohensD [1, 3] [0, 0] = NpVal.val 2 true
  ∧ cohensD [0, 0] [1, 3] = NpVal.val 2 false
  ∧ mean (diffScores l l) = 0
  ∧ sampleVar (diffScores l l) = 0
  ∧ cohensD l l = NpVal.nan
  ∧ ttestRelT l l = NpVal.nan := by
  have h1 : mean (diffScores l l) = 0 := by
    rw [diffScores_self, mean_replicate_zero]
  have h2 : sampleVar (diffScores l l) = 0 := by
    rw [diffScores_self, sampleVar_replicate_zero]
  refine ⟨rfl, rfl, by decide, by decide, h1, h2, ?_, ?_⟩
  · simp [cohensD, h1, h2, npDivSqrt]
  · simp [ttestRelT, h1, h2, npDivSqrt]

/-- Counterexample to claim C5 as stated: on identical arrays the paired t
statistic the code computes is the NaN float (0 divided by 0), which is not
the claimed value 0 (and scipy's p-value, `sf` of NaN, is NaN rather than
the claimed 1.0). -/
theorem c5_identical_arrays_counterexample :
    ttestRelT [31, 45, 52] [31, 45, 52] = NpVal.nan
  ∧ NpVal.nan ≠ NpVal.val 0 true
  ∧ cohensD [31, 45, 52] [31, 45, 52] = NpVal.nan := by decide

/-- Claim C10: the paired entry point computes both the paired t statistic
and the Wilcoxon statistic on every input; the Shapiro-Wilk outcome (the only
field two oracles may disagree on below) changes only which test is named,
never which computations are performed or their values. -/
theorem c10_both_tests_always_computed (lib₁ lib₂ : StatLib) (a b : List ℚ)
    (hw : lib₁.wilcoxonS = lib₂.wilcoxonS) :
    (pairedCompare lib₁ a b).t_res = ttestRelT a b
  ∧ (pairedCompare lib₁ a b).w_res = lib₁.wilcoxonS a b
  ∧ (pairedCompare lib₁ a b).t_res = (pairedCompare lib₂ a b).t_res
  ∧ (pairedCompare lib₁ a b).w_res = (pairedCompare lib₂ a b).w_res
  ∧ (pairedCompare lib₁ a b).mean_diff = (pairedCompare lib₂ a b).mean_diff
  ∧ (pairedCompare lib₁ a b).var_diff = (pairedCompare lib₂ a b).var_diff
  ∧ (pairedCompare lib₁ a b).cohens_d = (pairedCompare lib₂ a b).cohens_d :=
  ⟨rfl, rfl, rfl, by simp [pairedCompare, hw], rfl, rfl, rfl⟩

/-- Concrete instantiation of claim C10's theorem, with two oracles that
differ only in their Shapiro-Wilk p-values. -/
theorem c10_both_tests_always_computed_witness :
    libA.wilcoxonS = libHalf.wilcoxonS
  ∧ (pairedCompare libA [1, 2] [0, 1]).t_res = ttestRelT [1, 2] [0, 1]
  ∧ (pairedCompare libA [1, 2] [0, 1]).w_res = libA.wilcoxonS [1, 2] [0, 1] :=
  ⟨rfl,
   (c10_both_tests_always_computed libA libHalf [1, 2] [0, 1] rfl).1,
   (c10_both_tests_always_computed libA libHalf [1, 2] [0, 1] rfl).2.1⟩

/-- Claim C9: the Spearman helper encodes 有効 → 1, 不変 → 0, 逆効果 → −1 and
excludes データ不足 as missing; the correlation runs over only the jointly
valid pairs, only when more than 2 of them exist; with exactly 2 it reports
insufficient data and never attempts the correlation; with 3 it computes. -/
theorem c9_spearman_guard (lib : StatLib) (rows : List (Category × ℚ)) :
    (elementMapping .validCoping = some 1 ∧ elementMapping .noEffect = some 0
      ∧ elementMapping .counterproductive = some (-1)
      ∧ elementMapping .insufficientData = none)
  ∧ validPairs (dfAnalysis rows) = validPairs rows
  ∧ ((spearmanSection lib rows).isSome = true ↔ 3 ≤ (validPairs rows).length)
  ∧ ((validPairs rows).length = 2 → spearmanSection lib rows = none)
  ∧ (3 ≤ (validPairs rows).length →
        spearmanSection lib rows = some (lib.spearmanRP (validPairs rows))) := by
  refine ⟨⟨rfl, rfl, rfl, rfl⟩, ?_, ?_, ?_, ?_⟩
  · induction rows with
    | nil => rfl
    | cons r t ih =>
      obtain ⟨c, v⟩ := r
      cases c <;>
        simp only [validPairs, dfAnalysis, List.filter_cons, List.filterMap_cons,
          elementMapping, Option.map_some, Option.map_none, beq_iff_eq,
          reduceCtorEq, Bool.not_false, Bool.not_true, if_true, if_false] at ih ⊢ <;>
        simp [ih]
  · unfold spearmanSection; split_ifs with h <;> simp <;> omega
  · intro h2; unfold spearmanSection; rw [if_neg (by omega)]
  · intro h3; unfold spearmanSection; rw [if_pos (by omega)]

/-- Concrete instantiation of claim C9's theorem: two valid pairs give no
correlation attempt, three give one over exactly the valid pairs. -/
theorem c9_spearman_guard_witness :
    (validPairs rowsTwoValid).length = 2
  ∧ spearmanSection libA rowsTwoValid = none
  ∧ 3 ≤ (validPairs rowsThreeValid).length
  ∧ spearmanSection libA rowsThreeValid
      = some (libA.spearmanRP (validPairs rowsThreeValid)) :=
  ⟨by decide, (c9_spearman_guard libA rowsTwoValid).2.2.2.1 (by decide),
   by decide, (c9_spearman_guard libA rowsThreeValid).2.2.2.2 (by decide)⟩

theorem length_cast_ne_zero (l : List ℚ) (h : l ≠ []) : (l.length : ℚ) ≠ 0 := by
  have hp : 0 < l.length := List.length_pos.mpr h
  exact_mod_cast Nat.pos_iff_ne_zero.mp hp

theorem sum_map_sub_const (l : List ℚ) (c : ℚ) :
    (l.map (fun x => x - c)).sum = l.sum - l.length * c := by
  induction l with
  | nil => simp
  | cons x t ih =>
    simp only [List.map_cons, List.sum_cons, List.length_cons, ih]
    push_cast
    ring

theorem sum_map_sub_mean (l : List ℚ) (h : l ≠ []) :
    (l.map (fun x => x - mean l)).sum = 0 := by
  have hn := length_cast_ne_zero l h
  rw [sum_map_sub_const, mean, mul_comm, div_mul_cancel₀ _ hn, sub_self]

theorem sum_sq_decomp (l : List ℚ) (a b : ℚ) :
    (l.map (fun x => (x - b) ^ 2)).sum
      = (l.map (fun x => (x - a) ^ 2)).sum
        + 2 * (a - b) * (l.map (fun x => x - a)).sum
        + (l.length : ℚ) * (a - b) ^ 2 := by
  induction l with
  | nil => simp
  | cons x t ih =>
    simp only [List.map_cons, List.sum_cons, List.length_cons, ih]
    push_cast
    ring

theorem group_decomp (l : List ℚ) (b : ℚ) (h : l ≠ []) :
    (l.map (fun x => (x - b) ^ 2)).sum
      = (l.map (fun x => (x - mean l) ^ 2)).sum
        + (l.length : ℚ) * (mean l - b) ^ 2 := by
  rw [sum_sq_decomp l (mean l) b, sum_map_sub_mean l h]
  ring

theorem ssWithin_nonneg (gs : List (List ℚ)) : 0 ≤ ssWithin gs := by
  refine List.sum_nonneg ?_
  intro x hx
  obtain ⟨g, _, rfl⟩ := List.mem_map.mp hx
  exact sum_sq_nonneg g (mean g)

theorem ssBetweenAt_nonneg (gs : List (List ℚ)) (b : ℚ) :
    0 ≤ ssBetweenAt gs b := by
  refine List.sum_nonneg ?_
  intro x hx
  obtain ⟨g, _, rfl⟩ := List.mem_map.mp hx
  positivity

theorem ssTotalAt_decomp (gs : List (List ℚ)) (b : ℚ) :
    (∀ g ∈ gs, g ≠ []) → ssTotalAt gs b = ssWithin gs + ssBetweenAt gs b := by
  induction gs with
  | nil => intro _; simp [ssTotalAt, ssWithin, ssBetweenAt]
  | cons g t ih =>
    intro h
    have hg : g ≠ [] := h g (List.mem_cons_self g t)
    have ht : ∀ x ∈ t, x ≠ [] := fun x hx => h x (List.mem_cons_of_mem g hx)
    have iht := ih ht
    simp only [ssTotalAt, ssWithin, ssBetweenAt, List.flatten_cons,
      List.map_cons, List.sum_cons, List.map_append, List.sum_append] at iht ⊢
    rw [iht, group_decomp g b hg]
    ring

theorem sum_map_add_const (l : List ℚ) (c : ℚ) :
    (l.map (fun x => x + c)).sum = l.sum + l.length * c := by
  induction l with
  | nil => simp
  | cons x t ih =>
    simp only [List.map_cons, List.sum_cons, List.length_cons, ih]
    push_cast
    ring

theorem mean_shift (l : List ℚ) (c : ℚ) (h : l ≠ []) :
    mean (l.map (fun x => x + c)) = mean l + c := by
  have hn := length_cast_ne_zero l h
  rw [mean, mean, List.length_map, sum_map_add_const, add_div, mul_comm,
    mul_div_assoc, div_self hn, mul_one]

theorem flatten_shift (gs : List (List ℚ)) (c : ℚ) :
    (gs.map (fun g => g.map (fun x => x + c))).flatten
      = gs.flatten.map (fun x => x + c) := by
  induction gs with
  | nil => rfl
  | cons g t ih =>
    rw [List.map_cons, List.flatten_cons, List.flatten_cons, List.map_append,
      ih]

theorem ssTotalAt_shift (gs : List (List ℚ)) (c b : ℚ) :
    ssTotalAt (gs.map (fun g => g.map (fun x => x + c))) (b + c)
      = ssTotalAt gs b := by
  unfold ssTotalAt
  rw [flatten_shift, List.map_map]
  congr 1
  have hfun : ((fun x => (x - (b + c)) ^ 2) ∘ (fun x : ℚ => x + c))
      = (fun x : ℚ => (x - b) ^ 2) := by
    funext x
    simp only [Function.comp]
    ring
  rw [hfun]

theorem ssBetweenAt_shift (gs : List (List ℚ)) (c b : ℚ)
    (h : ∀ g ∈ gs, g ≠ []) :
    ssBetweenAt (gs.map (fun g => g.map (fun x => x + c))) (b + c)
      = ssBetweenAt gs b := by
  unfold ssBetweenAt
  rw [List.map_map]
  congr 1
  refine List.map_congr_left ?_
  intro g hg
  simp only [Function.comp, List.length_map]
  rw [mean_shift g c (h g hg)]
  ring

theorem flatten_ne_nil (gs : List (List ℚ)) (h2 : 2 ≤ gs.length)
    (hne : ∀ g ∈ gs, g ≠ []) : gs.flatten ≠ [] := by
  cases gs with
  | nil => simp at h2
  | cons g t =>
    have hg := hne g (List.mem_cons_self g t)
    intro hfl
    rw [List.flatten_cons] at hfl
    exact hg (List.append_eq_nil.mp hfl).1

theorem grandMean_shift (gs : List (List ℚ)) (c : ℚ) (h : gs.flatten ≠ []) :
    grandMean (gs.map (fun g => g.map (fun x => x + c))) = grandMean gs + c := by
  unfold grandMean
  rw [flatten_shift, mean_shift _ _ h]

/-- Claim C7: for at least 2 non-empty groups with nonzero total sum of
squares, eta-squared lies in [0, 1] (between-group SS is a non-negative part
of the total SS by the within/between decomposition), and it is invariant
under adding the same constant to every value in every group. -/
theorem c7_eta_sq_unit_interval_translation (gs : List (List ℚ)) (c : ℚ)
    (h2 : 2 ≤ gs.length) (hne : ∀ g ∈ gs, g ≠ [])
    (hss : ssTotal gs ≠ 0) :
    0 ≤ calcEtaSquared gs ∧ calcEtaSquared gs ≤ 1
  ∧ calcEtaSquared (gs.map (fun g => g.map (fun x => x + c)))
      = calcEtaSquared gs := by
  have hpos : 0 < ssTotal gs := lt_of_le_of_ne (ssTotal_nonneg gs) (Ne.symm hss)
  have hdec : ssTotal gs = ssWithin gs + ssBetween gs :=
    ssTotalAt_decomp gs (grandMean gs) hne
  have hB0 : 0 ≤ ssBetween gs := ssBetweenAt_nonneg gs (grandMean gs)
  have hW0 : 0 ≤ ssWithin gs := ssWithin_nonneg gs
  have hBle : ssBetween gs ≤ ssTotal gs := by rw [hdec]; linarith
  have heta : calcEtaSquared gs = ssBetween gs / ssTotal gs := by
    unfold calcEtaSquared; rw [if_pos hpos]
  have hfl : gs.flatten ≠ [] := flatten_ne_nil gs h2 hne
  have hT : ssTotal (gs.map (fun g => g.map (fun x => x + c)))
      = ssTotal gs := by
    unfold ssTotal
    rw [grandMean_shift gs c hfl, ssTotalAt_shift]
  have hB : ssBetween (gs.map (fun g => g.map (fun x => x + c)))
      = ssBetween gs := by
    unfold ssBetween
    rw [grandMean_shift gs c hfl, ssBetweenAt_shift gs c _ hne]
  refine ⟨?_, ?_, ?_⟩
  · rw [heta]; exact div_nonneg hB0 (le_of_lt hpos)
  · rw [heta]; exact (div_le_one hpos).mpr hBle
  · unfold calcEtaSquared
    rw [hT, hB]

/-- Concrete instantiation of claim C7's theorem at two singleton groups and
the shift c = 5. -/
theorem c7_eta_sq_unit_interval_translation_witness :
    (2 ≤ ([[0], [2]] : List (List ℚ)).length
      ∧ (∀ g ∈ ([[0], [2]] : List (List ℚ)), g ≠ [])
      ∧ ssTotal [[0], [2]] ≠ 0)
  ∧ (0 ≤ calcEtaSquared [[0], [2]] ∧ calcEtaSquared [[0], [2]] ≤ 1
      ∧ calcEtaSquared (([[0], [2]] : List (List ℚ)).map
          (fun g => g.map (fun x => x + 5))) = calcEtaSquared [[0], [2]]) :=
  ⟨⟨by decide, by decide, by decide⟩,
   c7_eta_sq_unit_interval_translation [[0], [2]] 5 (by decide) (by decide)
     (by decide)⟩

/-- Claim C1 (code bug): composite_analysis.py has no fewer-than-2-groups
guard.  The first conjunct is a well-formed two-group run assigning
`p_value = 0.03`; the second shows the next dimension, with only one
surviving group, reporting that same stale p-value, test name and
significance tier (with eta-squared recomputed from the current single
group), instead of an insufficient-groups error; the third shows a
one-group dimension processed first raises `NameError`; the fourth shows
Analyze_elements_groups.py, by contrast, skips such a dimension entirely. -/
theorem c1_composite_stale_p_value :
    (compositeStep libA compositeInit rowsTwoGroups).2
      = .ok { test := .tTest, p_value := 3 / 100, sig := .p05, eta_sq := 6 / 7
            , eta_tier := .large }
  ∧ (compositeStep libA
        (compositeStep libA compositeInit rowsTwoGroups).1 rowsOneGroup).2
      = .ok { test := .tTest, p_value := 3 / 100, sig := .p05, eta_sq := 0
            , eta_tier := .negligible }
  ∧ (compositeStep libA compositeInit rowsOneGroup).2 = .error .nameError
  ∧ analyzeCompare libA rowsOneGroup = none := by decide

end Thesis
